import Mathlib

/-!
Verification of the jallib `tools/blink-a-led.py` sample generator.

The Python script is shallowly embedded: a device file is a `List String`
of its lines, the global dictionaries `var` and `fusedef` are association
lists, and each Python function becomes a pure Lean function over these.
External subprocesses (the JAL validator and compiler) are modelled by
their observable result (a boolean, resp. the captured textual report).
-/

namespace Blink

/-! ## Python string primitives

Python `str.split()`, substring membership (`in`), `str.startswith`,
`str.upper`, `%-Ns` left justification and `int()` are re-implemented by
structural recursion on character lists so that they evaluate on concrete
inputs. -/

/-- Python `b.startswith(a)` at the character-list level. -/
def listIsPrefix : List Char → List Char → Bool
  | [], _ => true
  | _ :: _, [] => false
  | a :: as, b :: bs => a == b && listIsPrefix as bs

/-- Substring occurrence of `needle` anywhere in the haystack. -/
def listIsInfix (needle : List Char) : List Char → Bool
  | [] => listIsPrefix needle []
  | h :: t => listIsPrefix needle (h :: t) || listIsInfix needle t

/-- Python `sub in s` (substring containment). -/
def pyin (sub s : String) : Bool := listIsInfix sub.toList s.toList

/-- Python `s.startswith(pre)`. -/
def pystartswith (s pre : String) : Bool := listIsPrefix pre.toList s.toList

/-- Helper for `pysplit`: `acc` is the reversed current word. -/
def splitWsAux : List Char → List Char → List String
  | acc, [] => if acc.isEmpty then [] else [String.mk acc.reverse]
  | acc, c :: cs =>
      if c.isWhitespace then
        if acc.isEmpty then splitWsAux [] cs
        else String.mk acc.reverse :: splitWsAux [] cs
      else splitWsAux (c :: acc) cs

/-- Python `s.split()`: split on whitespace runs, dropping empty words. -/
def pysplit (s : String) : List String := splitWsAux [] s.toList

/-- Python `s.upper()` (ASCII suffices for the fuse-group names used). -/
def pyupper (s : String) : String := String.mk (s.toList.map Char.toUpper)

/-- Python `"%-Ns" % s`: left justification to width `w`. -/
def ljust (s : String) (w : Nat) : String :=
  s ++ String.mk (List.replicate (w - s.length) ' ')

/-- Digit run to a number; `none` on a non-digit or an empty run. -/
def parseDigits : List Char → Nat → Option Nat
  | [], acc => some acc
  | c :: cs, acc => if c.isDigit then parseDigits cs (acc * 10 + (c.toNat - 48)) else none

/-- Python `int(s)` restricted to optionally signed decimal literals
(the compiler-report tokens the script feeds it). `none` models the
`ValueError` Python would raise. -/
def pyint? (s : String) : Option Int :=
  match s.toList with
  | [] => none
  | '-' :: ds => if ds.isEmpty then none else (parseDigits ds 0).map (fun n => -(n : Int))
  | '+' :: ds => if ds.isEmpty then none else (parseDigits ds 0).map (fun n => (n : Int))
  | ds => (parseDigits ds 0).map (fun n => (n : Int))

/-! ## Device-file scanner (`collect_fusedef` / `scan_devfile`)

The global dict `fusedef` (fuse-group name to keyword list) and `var`
(feature name to value; booleans stored as `1`) are association lists
with Python's overwrite-on-assign realised by prepending, so `lookup`
sees the latest binding.  A device file is its list of lines (without
the trailing newline; end of list is EOF, so Python's `readline() == ""`
EOF test is the empty-list case, while a blank line is a line whose
`split()` is empty). -/

/-- Fuse-group map: `fusedef` in the script. -/
abbrev Fusedef := List (String × List String)

/-- Feature map: `var` in the script (`True` stored as `1`). -/
abbrev Vars := List (String × Nat)

/-- Initial `var` dictionary: `{"ircfwidth" : 0}`. -/
def initVars : Vars := [("ircfwidth", 0)]

/-- `collect_fusedef(fp)`: read lines, collecting each line's first word
until a line whose first word is `"}"` or EOF.  A line with no words makes
`words[0]` raise `IndexError` — modelled as `none`.  On success, returns
the keyword list and the unconsumed lines. -/
def collect_fusedef : List String → Option (List String × List String)
  | [] => some ([], [])
  | ln :: rest =>
      match pysplit ln with
      | [] => none
      | w :: _ =>
          if w = "\x7d" then some ([], rest)
          else match collect_fusedef rest with
               | none => none
               | some (kws, rem) => some (w :: kws, rem)

/-- The `elif` chain of `scan_devfile` mapping a `fuse_def` name to the
`fusedef` dictionary key it is collected under (`none`: no branch taken). -/
def fusekey (fuse : String) : Option String :=
  if pystartswith fuse "BROWNOUT" then some "brownout"
  else if pystartswith fuse "CLKOUTEN" then some "clkouten"
  else if pystartswith fuse "CPUDIV" then some "cpudiv"
  else if pystartswith fuse "CSWEN" then some "cswen"
  else if pystartswith fuse "DEBUG" then some "debug"
  else if pystartswith fuse "FCMEN" then some "fcmen"
  else if pystartswith fuse "FOSC2" then some "fosc2"
  else if pystartswith fuse "ICPRT" then some "icprt"
  else if pystartswith fuse "IESO" then some "ieso"
  else if pystartswith fuse "IOSCFS" then some "ioscfs"
  else if pystartswith fuse "LVP" then some "lvp"
  else if pystartswith fuse "MCLR" then some "mclr"
  else if pystartswith fuse "OSC:" || fuse == "OSC" then some "osc"
  else if pystartswith fuse "PLLDIV" then some "plldiv"
  else if pystartswith fuse "PLLEN" then some "pllen"
  else if pystartswith fuse "RSTOSC" then some "rstosc"
  else if pystartswith fuse "USBDIV" then some "usbdiv"
  else if pystartswith fuse "VREGEN" then some "vregen"
  else if pystartswith fuse "WDT:" || fuse == "WDT" then some "wdt"
  else if pystartswith fuse "XINST" then some "xinst"
  else if pystartswith fuse "JTAGEN" then some "jtagen"
  else if pystartswith fuse "MVECEN" then some "mvecen"
  else none

/-- The per-line `var` updates of `scan_devfile` (the `ln.find(...) >= 0`
marker chain), applied only to lines of more than two words that are not
`pragma fuse_def` lines. -/
def update_var (ln : String) (v : Vars) : Vars :=
  if pyin " WDTCON_SWDTEN " ln then ("wdtcon_swdten", 1) :: v
  else if pyin " USB_BDT_ADDRESS " ln then ("usb_bdt", 1) :: v
  else if pyin " OSCCON_IRCF " ln then
    (if pyin "bit*2" ln then ("ircfwidth", 2) :: v
     else if pyin "bit*3" ln then ("ircfwidth", 3) :: v
     else if pyin "bit*4" ln then ("ircfwidth", 4) :: v
     else v)
  else if pyin " OSCCON_SCS " ln then ("osccon_scs", 1) :: v
  else if pyin " OSCCON_SPLLEN " ln then ("osccon_spllen", 1) :: v
  else if pyin " OSCFRQ_FRQ3 " ln then ("oscfrq_frq3", 1) :: v
  else if pyin " OSCFRQ_HFFRQ " ln then ("oscfrq_hffrq", 1) :: v
  else if pyin " OSCFRQ_FRQ " ln then ("oscfrq_frq", 1) :: v
  else if pyin " OSCFRQ_HFFRQ3 " ln then ("oscfrq_hffrq3", 1) :: v
  else if pyin " OSCCON1_NOSC " ln then ("osccon1_nosc", 1) :: v
  else if pyin " OSCCON1_NDIV " ln then ("osccon1_ndiv", 1) :: v
  else if pyin " OSCTUNE_PLLEN " ln then ("osctune_pllen", 1) :: v
  else v

/-- The line loop of `scan_devfile`: blank and `--` lines pass; a
`pragma fuse_def <FUSE> ...` line of more than two words whose `FUSE`
matches a known category hands the following lines to `collect_fusedef`;
other lines of more than two words go through the marker chain.  `none`
models the uncaught `IndexError` from `collect_fusedef`.

To keep the recursion structural on the line list, the nested
`collect_fusedef` call is realised as an explicit mode: while `mode` is
`some (key, acc)` the loop is inside the keyword block being collected
for the `fusedef` entry `key`, with `acc` the keywords read so far in
reverse; `scan_loop_block_eq_collect` proves this mode is exactly a
`collect_fusedef` call followed by the dictionary store. -/
def scan_loop : List String → Fusedef → Vars → Option (String × List String) →
    Option (Fusedef × Vars)
  | [], fd, v, none => some (fd, v)
  | [], fd, v, some (key, acc) => some ((key, acc.reverse) :: fd, v)
  | ln :: rest, fd, v, some (key, acc) =>
      match pysplit ln with
      | [] => none
      | w :: _ =>
          if w = "\x7d" then scan_loop rest ((key, acc.reverse) :: fd) v none
          else scan_loop rest fd v (some (key, w :: acc))
  | ln :: rest, fd, v, none =>
      match pysplit ln with
      | [] => scan_loop rest fd v none
      | w0 :: ws =>
          if w0 = "--" then scan_loop rest fd v none
          else if hlen : (w0 :: ws).length > 2 then
            if w0 = "pragma" ∧ ws.head? = some "fuse_def" then
              match fusekey ((w0 :: ws).get ⟨2, hlen⟩) with
              | some key => scan_loop rest fd v (some (key, []))
              | none => scan_loop rest fd v none
            else scan_loop rest fd (update_var ln v) none
          else scan_loop rest fd v none

/-- Inside a keyword block, `scan_loop` computes `collect_fusedef` and
stores its result under `key`, resuming the top-level loop on the
unconsumed lines. -/
theorem scan_loop_block_eq_collect (ls : List String) (key : String)
    (acc : List String) (fd : Fusedef) (v : Vars) :
    scan_loop ls fd v (some (key, acc)) =
      match collect_fusedef ls with
      | none => none
      | some (kws, rem) => scan_loop rem ((key, acc.reverse ++ kws) :: fd) v none := by
  induction ls generalizing acc fd with
  | nil => simp [scan_loop, collect_fusedef]
  | cons ln rest ih =>
      simp only [scan_loop, collect_fusedef]
      rcases hw : pysplit ln with _ | ⟨w, ws⟩
      · rfl
      · by_cases hbr : w = "\x7d"
        · simp [hbr]
        · simp only [hbr, if_false, ih (w :: acc) fd]
          rcases collect_fusedef rest with _ | ⟨kws, rem⟩
          · rfl
          · simp

/-- `scan_devfile`: scan the whole file starting from the empty `fusedef`
and the initial `var`. -/
def scan_devfile (lines : List String) : Option (Fusedef × Vars) :=
  scan_loop lines [] initVars none

/-! ## Pin selector (`find_blinkpin`) -/

/-- The candidate pin names, in the loop order of `find_blinkpin`:
ports `A, B, C`, bit positions `0..7` (`"pin_%c%d" % (p, q)`). -/
def blink_candidates : List String :=
  ["A", "B", "C"].flatMap (fun p => (List.range 8).map (fun q => "pin_" ++ p ++ toString q))

/-- The nested `for` loops of `find_blinkpin` over the whole file text
`fstr`: a candidate present without its `_direction` counterpart is
skipped (logged), the first candidate with both present is returned,
`""` if none qualifies. -/
def find_pin_loop (fstr : String) : List String → String
  | [] => ""
  | c :: cs =>
      if pyin c fstr then
        if pyin (c ++ "_direction") fstr then c else find_pin_loop fstr cs
      else find_pin_loop fstr cs

/-- `find_blinkpin(devfile)` on the file's full text. -/
def find_blinkpin (fstr : String) : String := find_pin_loop fstr blink_candidates

/-! ## Per-device variant dispatch (`main` / `create_sample`)

`create_sample` and the oscillator-keyword chain at the bottom of `main`
decide which `(osctype, oscword)` pairs are handed to
`build_validate_compile_sample`.  The functions below return that list
of attempted build calls, in call order; whether each individual build
then succeeds does not influence which calls are made (only the sample
counter). -/

/-- The internal-oscillator `if/elif` chain of `create_sample` (the
`elif ("osc" in fusedef)` body before the USB variant): at most one
attempted build. -/
def create_intosc_chain (fd : Fusedef) (osclist : List String) :
    List (String × String) :=
  if "INTOSC_NOCLKOUT" ∈ osclist then [("INTOSC", "INTOSC_NOCLKOUT")]
  else if "INTOSC_NOCLKOUT_USB_HS" ∈ osclist then
    [("INTOSC", "INTOSC_NOCLKOUT_USB_HS")]
  else if "INTOSC_NOCLKOUT_PLL" ∈ osclist then
    [("INTOSC_USB", "INTOSC_NOCLKOUT_PLL")]
  else if "OFF" ∈ osclist then [("INTOSC", "OFF")]
  else
    match fd.lookup "fosc2" with
    | some f2 =>
        if "ON" ∈ f2 then
          if "EC_CLKOUT_PLL" ∈ osclist then [("INTOSC", "EC_CLKOUT_PLL")]
          else if "INTOSC_NOCLKOUT_PLL" ∈ osclist then
            [("INTOSC", "INTOSC_NOCLKOUT")]
          else []
        else []
    | none => []

/-- The `# The USB variant.` tail of `create_sample`. -/
def create_usb_extra (osclist : List String) (v : Vars) : List (String × String) :=
  if "HS_PLL" ∈ osclist ∧ (v.lookup "usb_bdt").isSome then [("HS_USB", "HS_PLL")]
  else []

/-- The builds attempted by one `create_sample()` call, given the
enclosing `osctype`/`oscword` and the scanned `fusedef`/`var`. -/
def create_sample_attempts (osctype oscword : String) (fd : Fusedef) (v : Vars) :
    List (String × String) :=
  if osctype = "HS" then [("HS", oscword)]
  else if (fd.lookup "ioscfs").isSome ∧ (fd.lookup "osc").isNone then
    match fd.lookup "ioscfs" with
    | some l => if "F4MHZ" ∈ l then [("INTOSC", "F4MHZ")] else []
    | none => []
  else
    match fd.lookup "osc" with
    | some osclist => create_intosc_chain fd osclist ++ create_usb_extra osclist v
    | none => []

/-- The builds attempted for one device by the oscillator chain of
`main` (lines after `find_blinkpin` succeeded): if no `osc` fuse group
was scanned, one `create_sample()` with `osctype = "INTOSC"` (its
`oscword` from the `ioscfs`/`"f4mhz" in var` test); else one
`create_sample()` per matching `OFF` / `INTOSC_NOCLKOUT` / `HSH` /
`PRI` / `HS` keyword, in that order. -/
def main_dispatch (fd : Fusedef) (v : Vars) : List (String × String) :=
  match fd.lookup "osc" with
  | none =>
      let oscword :=
        if (fd.lookup "ioscfs").isSome ∧ (v.lookup "f4mhz").isSome then "f4mhz" else ""
      create_sample_attempts "INTOSC" oscword fd v
  | some osclist =>
      (if "OFF" ∈ osclist then create_sample_attempts "INTOSC" "OFF" fd v else [])
      ++ (if "INTOSC_NOCLKOUT" ∈ osclist then
            create_sample_attempts "INTOSC" "INTOSC_NOCLKOUT" fd v
          else [])
      ++ (if "HSH" ∈ osclist then create_sample_attempts "HS" "HSH" fd v else [])
      ++ (if "PRI" ∈ osclist then create_sample_attempts "HS" "PRI" fd v else [])
      ++ (if "HS" ∈ osclist then create_sample_attempts "HS" "HS" fd v else [])

/-- The device file's full text as `find_blinkpin` reads it
(`fp.read()`), from its lines. -/
def devtext (lines : List String) : String :=
  String.intercalate "\n" lines ++ "\n"

/-- One device-loop iteration of `main`, reduced to the list of
attempted builds: `none` if the scan crashes; `some []` if no blink pin
is found (the device is skipped); otherwise the dispatched attempts.
The preceding `validate_jalfile` subprocess call is modelled by the
`validated` flag. -/
def pipeline_attempts (validated : Bool) (lines : List String) :
    Option (List (String × String)) :=
  if !validated then some []
  else
    match scan_devfile lines with
    | none => none
    | some (fd, v) =>
        if find_blinkpin (devtext lines) = "" then some []
        else some (main_dispatch fd v)

/-! ## Sample synthesizer (`build_sample`)

`build_sample(pic, pin, osctype, oscword)` writes the sample program
line by line; we model the produced file as the list of written lines
(each `fp.write(s + "\n")` contributes one line).  Its other inputs are
the globals `fusedef` and `var`, the chip's `devicespecific.json` entry
`picdata` (an association list), and the two clock reads, bundled in
`Timestamp`: `yyyy` is `time.ctime().split()[-1]` and `nowCtime` is
`datetime.datetime.now().ctime()`. -/

/-- Script constant `ScriptAuthor`. -/
def ScriptAuthor : String := "Rob Hamerling, Rob Jansen"

/-- Script constant `CompilerVersion`. -/
def CompilerVersion : String := "2.5r6"

/-- The two wall-clock reads `build_sample` embeds into the output. -/
structure Timestamp where
  yyyy : String
  nowCtime : String
deriving DecidableEq, Repr

/-- The chip's entry of `devicespecific.json` (`picdata` in the script). -/
abbrev Picdata := List (String × String)

/-- The nested helper `fusedef_insert(fuse, kwd, cmt)`: one
`pragma target` line if fuse group `fuse` exists and contains `kwd`,
else nothing. -/
def fusedef_insert (fd : Fusedef) (fuse kwd cmt : String) : List String :=
  match fd.lookup fuse with
  | some l =>
      if kwd ∈ l then
        ["pragma target " ++ ljust (pyupper fuse) 8 ++ " " ++ ljust kwd 25 ++ " -- " ++ cmt]
      else []
  | none => []

/-- The `_hs`/`_intosc`/`_hs_usb`/`_intosc_usb` program-name suffix;
`none` for an unrecognized oscillator type (`build_sample` returns
`None` before opening any file). -/
def osc_suffix (osctype : String) : Option String :=
  if osctype = "HS" then some "_hs"
  else if osctype = "INTOSC" then some "_intosc"
  else if osctype = "HS_USB" then some "_hs_usb"
  else if osctype = "INTOSC_USB" then some "_intosc_usb"
  else none

/-- Header lines written before the creation-timestamp line.  Only the
copyright year `yyyy` of the two clock reads enters here. -/
def blink_header (pic osctype yyyy : String) : List String :=
  ["-- ------------------------------------------------------",
   "-- Title: Blink-a-led of the Microchip pic" ++ pic,
   "--",
   "-- Author: " ++ ScriptAuthor ++ ", Copyright (c) 2008.." ++ yyyy ++ " all rights reserved.",
   "--",
   "-- Adapted-by:",
   "--",
   "-- Compiler:" ++ CompilerVersion,
   "--",
   "-- This file is part of jallib (https://github.com/jallib/jallib)",
   "-- Released under the ZLIB license (http://www.opensource.org/licenses/zlib-license.html)",
   "--",
   "-- Description:",
   "--    Simple blink-a-led program for Microchip pic" ++ pic,
   if osctype = "HS" ∨ osctype = "HS_USB" then "--    using an external crystal or resonator."
   else "--    using the internal oscillator.",
   "--    The LED should be flashing twice a second!",
   "--",
   "-- Sources:",
   "--",
   "-- Notes:"]

/-- The single line carrying the creation date/time. -/
def ts_line (ts : Timestamp) : String :=
  "--  - Creation date/time: " ++ ts.nowCtime

/-- The oscillator-selection section (`# oscillator selection`). -/
def osc_section (osctype oscword : String) (fd : Fusedef) (v : Vars) : List String :=
  if osctype = "HS" then
    ["-- This program assumes that a 20 MHz resonator or crystal",
     "-- is connected to pins OSC1 and OSC2.",
     "pragma target clock 20_000_000      -- oscillator frequency",
     "--",
     "pragma target OSC      " ++ ljust oscword 25 ++ " -- crystal or resonator"]
    ++ (if (fd.lookup "fosc2").isSome then
          ["pragma target FOSC2    " ++ ljust "ON" 25 ++ " -- system clock: OSC"]
        else [])
    ++ (match fd.lookup "rstosc" with
        | some l =>
            if "EXT1X" ∈ l then
              ["pragma target RSTOSC   " ++ ljust "EXT1X" 25 ++ " -- power-up clock select: OSC"]
            else []
        | none => [])
    ++ (if oscword = "PRI" then
          ["pragma target POSCMD   " ++ ljust "HS" 25 ++ " -- high speed"]
        else [])
  else if osctype = "INTOSC" ∨ osctype = "" then
    ["-- This program uses the internal oscillator at 4 MHz.",
     "pragma target clock    4_000_000       -- oscillator frequency",
     "--"]
    ++ (if oscword ≠ "F4MHZ" then
          ["pragma target OSC      " ++ ljust oscword 25 ++ " -- internal oscillator"]
        else [])
    ++ fusedef_insert fd "fosc2" "OFF" "Internal Oscillator"
    ++ fusedef_insert fd "ioscfs" "F4MHZ" "select 4 MHz"
    ++ (if (v.lookup "oscfrq_frq3").isSome then
          fusedef_insert fd "rstosc" "HFINTOSC_64MHZ" "select 64 MHz"
        else if (v.lookup "oscfrq").isSome ∨ (v.lookup "oscfrq_hffrq").isSome then
          fusedef_insert fd "rstosc" "HFINT32" "select 32 MHz"
        else if (v.lookup "oscfrq_frq").isSome then
          fusedef_insert fd "rstosc" "HFINTOSC_32MHZ" "select 32 MHz"
        else [])
  else if osctype = "HS_USB" then
    ["-- This program assumes that a 20 MHz resonator or crystal",
     "-- is connected to pins OSC1 and OSC2, and USB active.",
     "-- But PIC will be running at 48MHz.",
     "pragma target clock 48_000_000      -- oscillator frequency",
     "--",
     "pragma target OSC      " ++ ljust oscword 25 ++ " -- HS osc + PLL"]
  else if osctype = "INTOSC_USB" then
    ["-- This program uses the internal oscillator with PLL active.",
     "pragma target clock 48_000_000      -- oscillator frequency",
     "--",
     "pragma target OSC      " ++ ljust oscword 25 ++ " -- internal oscillator"]
    ++ fusedef_insert fd "fosc2" "OFF" "Internal oscillator"
  else []

/-- The `wdtword` chosen by the watchdog block.  In the source the
second branch is `elif ("CONTROL", fusedef["wdt"]):` — a two-element
tuple, which is always truthy in Python — so `CONTROL` is chosen
whenever `DISABLED` is absent, without any membership test of
`CONTROL` in the keyword list. -/
def wdtword (fd : Fusedef) : String :=
  match fd.lookup "wdt" with
  | none => ""
  | some l => if "DISABLED" ∈ l then "DISABLED" else "CONTROL"

/-- The `pragma target WDT` line(s) written by the watchdog block
(same always-truthy tuple condition as `wdtword`). -/
def wdt_lines (fd : Fusedef) : List String :=
  match fd.lookup "wdt" with
  | none => []
  | some l =>
      if "DISABLED" ∈ l then
        ["pragma target WDT      " ++ ljust "DISABLED" 25 ++ " -- watchdog"]
      else
        ["pragma target WDT      " ++ ljust "CONTROL" 25 ++ " -- watchdog"]

/-- The configuration-directive section after the oscillator section:
PLL/divider fuses, the "easy" fuse_defs, the fixed closing comment and
the `WDTCON_SWDTEN` line. -/
def config_section (osctype : String) (fd : Fusedef) (v : Vars) (picdata : Picdata) :
    List String :=
  (if (fd.lookup "pllen").isSome then
     (if osctype = "INTOSC" then
        (if (picdata.lookup "PLLEN").isSome then fusedef_insert fd "pllen" "ENABLED" "PLL on"
         else fusedef_insert fd "pllen" "DISABLED" "PLL off")
      else if osctype = "INTOSC_USB" then fusedef_insert fd "pllen" "ENABLED" "PLL on"
      else fusedef_insert fd "pllen" "DISABLED" "PLL off")
   else [])
  ++ (if (fd.lookup "plldiv").isSome then
        (if osctype = "HS_USB" then fusedef_insert fd "plldiv" "P5" "20 MHz -> 4 MHz"
         else if osctype = "INTOSC_USB" then fusedef_insert fd "plldiv" "P2" "8 MHz -> 4 MHz"
         else fusedef_insert fd "plldiv" "P1" "clock postscaler")
      else [])
  ++ fusedef_insert fd "cpudiv" "P1" "Fosc divisor"
  ++ (if osctype = "HS_USB" then fusedef_insert fd "usbdiv" "P2" "USB clock selection" else [])
  ++ fusedef_insert fd "clkouten" "DISABLED" "no clock output"
  ++ wdt_lines fd
  ++ fusedef_insert fd "xinst" "DISABLED" "do not use extended instructionset"
  ++ fusedef_insert fd "debug" "DISABLED" "no debugging"
  ++ fusedef_insert fd "brownout" "DISABLED" "no brownout reset"
  ++ fusedef_insert fd "fcmen" "DISABLED" "no clock monitoring"
  ++ fusedef_insert fd "cswen" "ENABLED" "allow writing OSCCON1 NOSC and NDIV"
  ++ fusedef_insert fd "ieso" "DISABLED" "no int/ext osc switching"
  ++ fusedef_insert fd "vregen" "ENABLED" "voltage regulator used"
  ++ fusedef_insert fd "lvp" "ENABLED" "low voltage programming"
  ++ fusedef_insert fd "mclr" "EXTERNAL" "external reset"
  ++ fusedef_insert fd "mvecen" "DISABLED" "Do not use multi vectored interrupts"
  ++ fusedef_insert fd "jtagen" "DISABLED" "no JTAG to enable all I/O pins"
  ++ ["--",
      "-- The configuration bit settings above are only a selection, sufficient",
      "-- for this program. Other programs may need more or different settings.",
      "--"]
  ++ (if wdtword fd = "CONTROL" ∧ (v.lookup "wdtcon_swdten").isSome then
        ["WDTCON_SWDTEN = OFF                 -- disable WDT"]
      else [])

/-- The feature-conditioned register-initialization lines per oscillator
type. -/
def regs_section (osctype : String) (v : Vars) (picdata : Picdata) : List String :=
  if osctype = "HS" then
    (if (v.lookup "osccon_scs").isSome then
       ["OSCCON_SCS = 0                      -- select primary oscillator"] else [])
    ++ (if (v.lookup "osctune_pllen").isSome then
          ["OSCTUNE_PLLEN = FALSE               -- no PLL"] else [])
  else if osctype = "INTOSC" then
    (if (v.lookup "osccon_scs").isSome then
       ["OSCCON_SCS = 0                      -- select primary oscillator"] else [])
    ++ (if (v.lookup "oscfrq_frq3").isSome then
          ["OSCFRQ_HFFRQ = 0b0010               -- Fosc 64 -> 4 MHz"]
        else if (v.lookup "oscfrq_hffrq3").isSome then
          (if (v.lookup "osccon1_ndiv").isSome then
             ["OSCCON1_NDIV = 0b0011               -- Fosc 32 / 8 -> 4 MHz"]
           else
             ["OSCFRQ_HFFRQ = 0b0011               -- Fosc 32 -> ...",
              "OSCCON1_NOSC = 0b110                -- ... 4 MHz"])
        else if (v.lookup "oscfrq_hffrq").isSome then
          ["OSCFRQ_HFFRQ = 0b010                -- Fosc 32 -> 4 MHz"]
        else if (v.lookup "oscfrq_frq").isSome then
          ["OSCFRQ_FRQ = 0b010                  -- Fosc 32 -> 4 MHz"]
        else [])
    ++ (match v.lookup "ircfwidth" with
        | some n =>
            if n > 0 ∧ (picdata.lookup "OSCCON_IRCF").isSome then
              ["OSCCON_IRCF = 0b" ++ ljust ((picdata.lookup "OSCCON_IRCF").getD "") 5
                 ++ "               -- 4 MHz"]
            else []
        | none => [])
    ++ (if (v.lookup "osctune_pllen").isSome then
          ["OSCTUNE_PLLEN = FALSE               -- no PLL"] else [])
    ++ (if (v.lookup "osccon_spllen").isSome then
          ["OSCCON_SPLLEN = FALSE               -- software PLL off"] else [])
  else if osctype = "HS_USB" then
    (if (v.lookup "osccon_scs").isSome then
       ["OSCCON_SCS = 0                      -- select primary oscillator"] else [])
    ++ (if (v.lookup "osctune_pllen").isSome then
          ["OSCTUNE_PLLEN = TRUE                -- PLL"] else [])
  else if osctype = "INTOSC_USB" then
    (if (v.lookup "osccon_scs").isSome then
       ["OSCCON_SCS = 0                      -- select primary oscillator"] else [])
    ++ (if (v.lookup "osctune_pllen").isSome then
          ["OSCTUNE_PLLEN = TRUE                -- use PLL"] else [])
  else []

/-- The fixed blink-loop trailer. -/
def blink_trailer (pin : String) : List String :=
  ["--",
   "enable_digital_io()                 -- make all pins digital I/O",
   "--",
   "-- A low current (2 mA) led with 2.2K series resistor is recommended",
   "-- since the chosen pin may not be able to drive an ordinary 20mA led.",
   "--",
   "alias  led       is " ++ pin ++ "          -- alias for pin with LED",
   "--",
   pin ++ "_direction = OUTPUT",
   "--",
   "forever loop",
   "   led = ON",
   "   _usec_delay(100_000)",
   "   led = OFF",
   "   _usec_delay(400_000)",
   "end loop",
   "--"]

/-- Everything `build_sample` writes after the creation-timestamp line;
none of it depends on either clock read. -/
def blink_rest (pic pin osctype oscword : String) (fd : Fusedef) (v : Vars)
    (picdata : Picdata) : List String :=
  ["--  - This file is generated by 'blink-a-led.py' script! Do not change!",
   "--",
   "-- ------------------------------------------------------",
   "--",
   "include " ++ pic ++ "                     -- target PICmicro",
   "--"]
  ++ osc_section osctype oscword fd v
  ++ config_section osctype fd v picdata
  ++ regs_section osctype v picdata
  ++ blink_trailer pin

/-- The complete file content written by `build_sample`, as its lines. -/
def blink_lines (pic pin osctype oscword : String) (fd : Fusedef) (v : Vars)
    (picdata : Picdata) (ts : Timestamp) : List String :=
  blink_header pic osctype ts.yyyy
  ++ [ts_line ts]
  ++ blink_rest pic pin osctype oscword fd v picdata

/-- `build_sample`: `none` for an unrecognized oscillator type and for
the `INTOSC*`-with-`OSCCON_IRCF == "-"` refusal (both happen before the
output file is opened, so no file at all is produced); otherwise the
program file name and its content. -/
def build_sample (pic pin osctype oscword : String) (fd : Fusedef) (v : Vars)
    (picdata : Picdata) (ts : Timestamp) : Option (String × List String) :=
  match osc_suffix osctype with
  | none => none
  | some sfx =>
      if pystartswith osctype "INTOSC" ∧ picdata.lookup "OSCCON_IRCF" = some "-" then none
      else some (pic ++ "_blink" ++ sfx ++ ".jal",
                 blink_lines pic pin osctype oscword fd v picdata ts)

/-- `build_validate_compile_sample`: `False` (skip) when `build_sample`
produced nothing, else the conjunction of the validate and compile
outcomes, which are external subprocess results modelled as flags. -/
def build_validate_compile_sample (validateOk compileOk : Bool)
    (pic pin osctype oscword : String) (fd : Fusedef) (v : Vars)
    (picdata : Picdata) (ts : Timestamp) : Bool :=
  match build_sample pic pin osctype oscword fd v picdata ts with
  | none => false
  | some _ => validateOk && compileOk

/-! ## Compile-result classification (`compile_sample`)

`compile_sample` runs the external compiler and classifies its captured
report `log`.  The filesystem effects are modelled by `CompileOutcome`:
whether the generated source was moved to the destination directory,
whether it was deleted (it never is), whether the intermediate `.hex` /
`.asm` outputs were removed (`os.remove` guarded by existence, so a
removal happens exactly when the file exists), and whether the report
was saved to the `.log` companion file.  `none` models the uncaught
`IndexError`/`ValueError` when the trailing report tokens do not parse. -/

/-- Observable filesystem/result effects of one `compile_sample` call. -/
structure CompileOutcome where
  success : Bool
  sourceMoved : Bool
  sourceDeleted : Bool
  hexRemoved : Bool
  asmRemoved : Bool
  logWritten : Bool
deriving DecidableEq, Repr

/-- `int(loglist[-4])` and `int(loglist[-2])` of the report's words:
the error and warning counts.  `none` on a too-short report
(`IndexError`) or non-numeric tokens (`ValueError`). -/
def compile_counts (log : String) : Option (Int × Int) :=
  let loglist := pysplit log
  if loglist.length < 4 then none
  else
    match (loglist.get? (loglist.length - 4)).bind pyint?,
          (loglist.get? (loglist.length - 2)).bind pyint? with
    | some ne, some nw => some (ne, nw)
    | _, _ => none

/-- `compile_sample(runtype, pgmname)` in TEST mode (the PROD command
list is unconditionally overwritten at line 280 of the script, and PROD
is disabled at the entry point), reduced to its outcome given the
captured report and which intermediate outputs exist. -/
def compile_sample (log : String) (hexExists asmExists : Bool) : Option CompileOutcome :=
  match compile_counts log with
  | none => none
  | some (ne, nw) =>
      if ne = 0 ∧ nw = 0 then
        some { success := true, sourceMoved := true, sourceDeleted := false,
               hexRemoved := hexExists, asmRemoved := asmExists, logWritten := false }
      else
        some { success := false, sourceMoved := true, sourceDeleted := false,
               hexRemoved := false, asmRemoved := false, logWritten := true }

/-! ## Theorems for the specification claims -/

/-- The loop of `find_blinkpin` returns the first candidate that passes
both substring tests. -/
theorem find_pin_loop_eq_find? (fstr : String) (cs : List String) :
    find_pin_loop fstr cs =
      ((cs.find? (fun c => pyin c fstr && pyin (c ++ "_direction") fstr)).getD "") := by
  induction cs with
  | nil => rfl
  | cons c cs ih =>
      simp only [find_pin_loop, List.find?_cons]
      by_cases h1 : pyin c fstr
      · by_cases h2 : pyin (c ++ "_direction") fstr
        · simp [h1, h2]
        · simp [h1, h2, ih]
      · simp [h1, ih]

/-- C7: `find_blinkpin` tries `pin_A0 .. pin_A7, pin_B0 .. pin_B7,
pin_C0 .. pin_C7` in that order and returns the first candidate whose
name and whose name plus `"_direction"` both occur in the device-file
text (a candidate failing either test is skipped; `""` when none
qualifies); in particular whenever the `pin_A0` pair is present the
result is `pin_A0`, regardless of any later pair such as `pin_B3`. -/
theorem find_blinkpin_first_match (fstr : String) :
    find_blinkpin fstr =
      ((blink_candidates.find? (fun c => pyin c fstr && pyin (c ++ "_direction") fstr)).getD "")
    ∧ (pyin "pin_A0" fstr = true → pyin "pin_A0_direction" fstr = true →
        find_blinkpin fstr = "pin_A0") := by
  refine ⟨find_pin_loop_eq_find? fstr blink_candidates, fun h1 h2 => ?_⟩
  have hbc : blink_candidates = "pin_A0" :: blink_candidates.tail := by decide
  show find_pin_loop fstr blink_candidates = "pin_A0"
  rw [hbc]
  simp [find_pin_loop, h1, h2]

/-- Witness for `find_blinkpin_first_match` on a text containing both
the `A0` pair and the `B3` pair. -/
theorem find_blinkpin_first_match_witness :
    find_blinkpin "var bit pin_A0 ; var bit pin_A0_direction ; var bit pin_B3 ; var bit pin_B3_direction"
      = "pin_A0" :=
  (find_blinkpin_first_match _).2 (by decide) (by decide)

/-- C2: whenever the captured compiler report's trailing tokens parse as
an error count and a warning count, `compile_sample` returns success
exactly when both are zero, in which case it moves the generated source
to the destination directory and removes whichever intermediate `.hex`
and `.asm` outputs exist, writing no log; with any nonzero count it
returns failure, still never deletes the generated source, writes the
captured report to the `.log` companion file, and removes no
intermediate output. -/
theorem compile_sample_classification (log : String) (hexE asmE : Bool) (ne nw : Int)
    (h : compile_counts log = some (ne, nw)) :
    (ne = 0 ∧ nw = 0 →
       compile_sample log hexE asmE =
         some { success := true, sourceMoved := true, sourceDeleted := false,
                hexRemoved := hexE, asmRemoved := asmE, logWritten := false })
    ∧ (¬(ne = 0 ∧ nw = 0) →
       compile_sample log hexE asmE =
         some { success := false, sourceMoved := true, sourceDeleted := false,
                hexRemoved := false, asmRemoved := false, logWritten := true }) := by
  constructor <;> intro hc <;> simp [compile_sample, h, hc]

/-- Witness for `compile_sample_classification`: a zero/zero report is a
success with both intermediates removed; a `1 errors` report is a
failure with source and log preserved and nothing removed. -/
theorem compile_sample_classification_witness :
    compile_sample "jal compiler output 0 errors, 0 warnings" true true =
      some { success := true, sourceMoved := true, sourceDeleted := false,
             hexRemoved := true, asmRemoved := true, logWritten := false }
    ∧ compile_sample "jal compiler output 1 errors, 0 warnings" true true =
      some { success := false, sourceMoved := true, sourceDeleted := false,
             hexRemoved := false, asmRemoved := false, logWritten := true } :=
  ⟨(compile_sample_classification "jal compiler output 0 errors, 0 warnings" true true 0 0
      (by decide)).1 (by decide),
   (compile_sample_classification "jal compiler output 1 errors, 0 warnings" true true 1 0
      (by decide)).2 (by decide)⟩

/-- C6: for any `INTOSC`-prefixed oscillator type, when the chip's
static info records `OSCCON_IRCF` as `"-"`, `build_sample` returns no
program name and produces no file (it refuses before opening one), and
`build_validate_compile_sample` reports the variant as skipped
(`False`) whatever the validator and compiler would have said. -/
theorem build_sample_refuses_unsupported_intosc
    (pic pin osctype oscword : String) (fd : Fusedef) (v : Vars) (picdata : Picdata)
    (ts : Timestamp) (vOk cOk : Bool)
    (hpre : pystartswith osctype "INTOSC" = true)
    (hircf : picdata.lookup "OSCCON_IRCF" = some "-") :
    build_sample pic pin osctype oscword fd v picdata ts = none
    ∧ build_validate_compile_sample vOk cOk pic pin osctype oscword fd v picdata ts = false := by
  have hb : build_sample pic pin osctype oscword fd v picdata ts = none := by
    unfold build_sample
    rcases osc_suffix osctype with _ | sfx
    · rfl
    · simp [hpre, hircf]
  exact ⟨hb, by unfold build_validate_compile_sample; rw [hb]⟩

/-- Witness for `build_sample_refuses_unsupported_intosc`. -/
theorem build_sample_refuses_unsupported_intosc_witness :
    build_sample "12f675" "pin_A0" "INTOSC" "INTOSC_NOCLKOUT" [] initVars
        [("OSCCON_IRCF", "-")] ⟨"2024", "Mon Jul  1 10:00:00 2024"⟩ = none
    ∧ build_validate_compile_sample true true "12f675" "pin_A0" "INTOSC" "INTOSC_NOCLKOUT"
        [] initVars [("OSCCON_IRCF", "-")] ⟨"2024", "Mon Jul  1 10:00:00 2024"⟩ = false :=
  build_sample_refuses_unsupported_intosc "12f675" "pin_A0" "INTOSC" "INTOSC_NOCLKOUT"
    [] initVars [("OSCCON_IRCF", "-")] ⟨"2024", "Mon Jul  1 10:00:00 2024"⟩ true true
    (by decide) (by decide)

/-- C5 (code bug): on a chip whose watchdog fuse group is
`["NOSLEEP"]` — no `DISABLED`, and `CONTROL` *not* a member — the
synthesizer still emits `pragma target WDT CONTROL`, because the
source's guard `elif ("CONTROL", fusedef["wdt"]):` is a two-element
tuple (always truthy) instead of the evidently intended membership test
`"CONTROL" in fusedef["wdt"]`. -/
theorem wdt_control_emitted_without_membership :
    ("CONTROL" ∉ ["NOSLEEP"])
    ∧ ("pragma target WDT      " ++ ljust "CONTROL" 25 ++ " -- watchdog") ∈
        blink_lines "18f2550" "pin_A0" "INTOSC" "INTOSC_NOCLKOUT" [("wdt", ["NOSLEEP"])]
          initVars [] ⟨"2024", "Mon Jul  1 10:00:00 2024"⟩ := by
  decide

/-- An un-terminated block of non-blank, non-`}` lines is collected to
end of file: `collect_fusedef` returns the first words of all its lines
(and no remaining input), with no error. -/
theorem collect_fusedef_unterminated (ls : List String)
    (h1 : ∀ l ∈ ls, pysplit l ≠ [])
    (h2 : ∀ l ∈ ls, (pysplit l).head? ≠ some "\x7d") :
    collect_fusedef ls = some (ls.map (fun l => (pysplit l).headD ""), []) := by
  induction ls with
  | nil => rfl
  | cons ln rest ih =>
      have hln1 := h1 ln (by simp)
      have hln2 := h2 ln (by simp)
      rcases hw : pysplit ln with _ | ⟨w, ws⟩
      · exact absurd hw hln1
      · rw [hw] at hln2
        have hwne : w ≠ "\x7d" := by intro e; exact hln2 (by rw [e]; rfl)
        simp only [collect_fusedef, hw, hwne, if_false]
        rw [ih (fun l hl => h1 l (by simp [hl])) (fun l hl => h2 l (by simp [hl]))]
        simp [hw]

/-- C4 counterexample: a device file whose `fuse_def` keyword block is
never closed before end of file.  The scan completes normally (no
error) and the partially collected keyword list is returned as the
`osc` fuse group — refuting the claim that an un-terminated block is
treated as a scan error. -/
theorem scan_unterminated_no_error_cex :
    scan_devfile ["pragma fuse_def OSC 0x2007 \x7b", "HS", "XT"]
      = some ([("osc", ["HS", "XT"])], initVars) := by
  decide

/-- C4 amended: for a device file whose `fuse_def` block runs to end of
file without a standalone `}` line (all of its lines non-blank), the
scan does *not* error: it returns normally with the partially collected
first words as that fuse group's keyword list. -/
theorem scan_unterminated_returns_kwdlist (block : List String)
    (h1 : ∀ l ∈ block, pysplit l ≠ [])
    (h2 : ∀ l ∈ block, (pysplit l).head? ≠ some "\x7d") :
    scan_devfile ("pragma fuse_def OSC 0x2007 \x7b" :: block)
      = some ([("osc", block.map (fun l => (pysplit l).headD ""))], initVars) := by
  have step : scan_devfile ("pragma fuse_def OSC 0x2007 \x7b" :: block)
      = scan_loop block [] initVars (some ("osc", [])) := rfl
  rw [step, scan_loop_block_eq_collect, collect_fusedef_unterminated block h1 h2]
  rfl

/-- Witness for `scan_unterminated_returns_kwdlist`. -/
theorem scan_unterminated_returns_kwdlist_witness :
    scan_devfile ["pragma fuse_def OSC 0x2007 \x7b", "HS", "XT"]
      = some ([("osc", ["HS", "XT"])], initVars) :=
  (scan_unterminated_returns_kwdlist ["HS", "XT"] (by decide) (by decide)).trans (by decide)

/-- The lines `collect_fusedef` walks over before reaching the first
closing-`}` line (the whole input if the block is never closed): the
lines whose first word is actually accessed together with that closing
line excluded (its own first word exists by definition of "closing"). -/
def block_body : List String → List String
  | [] => []
  | l :: ls =>
      if (pysplit l).head? = some "\x7d" then [] else l :: block_body ls

/-- C10: (1) if every line of the block input before the first line whose
first word is `}` is non-blank, the `words[0]` access in
`collect_fusedef` is always defined and the collection terminates
normally (this also covers a block running to EOF); (2) with a blank
line inside the block — before any closing `}` line — the first-word
access has no value (`IndexError`, modelled `none`); (3) yet a blank
line outside any block is tolerated by the scanner's line loop. -/
theorem collect_fusedef_first_word_safety :
    (∀ ls : List String,
        (∀ l ∈ block_body ls, pysplit l ≠ []) →
        (collect_fusedef ls).isSome = true)
    ∧ (∀ (pre : List String) (b : String) (rest : List String),
        (∀ l ∈ pre, pysplit l ≠ [] ∧ (pysplit l).head? ≠ some "\x7d") →
        pysplit b = [] →
        collect_fusedef (pre ++ b :: rest) = none)
    ∧ (∀ (rest : List String) (fd : Fusedef) (v : Vars),
        scan_loop ("" :: rest) fd v none = scan_loop rest fd v none) := by
  refine ⟨?_, ?_, ?_⟩
  · intro ls
    induction ls with
    | nil => intro _; rfl
    | cons ln rest ih =>
        intro h
        rcases hw : pysplit ln with _ | ⟨w, ws⟩
        · have hpred : ¬((pysplit ln).head? = some "\x7d") := by rw [hw]; simp
          have hmem : ln ∈ block_body (ln :: rest) := by
            simp [block_body, hpred]
          exact absurd hw (h ln hmem)
        · by_cases hbr : w = "\x7d"
          · simp [collect_fusedef, hw, hbr]
          · have hpred : ¬((pysplit ln).head? = some "\x7d") := by
              rw [hw]; simp [hbr]
            have htail : ∀ l ∈ block_body rest, pysplit l ≠ [] := by
              intro l hl
              refine h l ?_
              simp [block_body, hpred, hl]
            have hrest := ih htail
            simp only [collect_fusedef, hw, hbr, if_false]
            rcases hc : collect_fusedef rest with _ | ⟨kws, rem⟩
            · rw [hc] at hrest; exact absurd hrest (by simp)
            · simp
  · intro pre b rest h hb
    induction pre with
    | nil => simp [collect_fusedef, hb]
    | cons p pre' ih =>
        have hp := h p (by simp)
        rcases hw : pysplit p with _ | ⟨w, ws⟩
        · exact absurd hw hp.1
        · have hwne : w ≠ "\x7d" := by
            intro e; apply hp.2; rw [hw, e]; rfl
          have hrec := ih (fun l hl => h l (by simp [hl]))
          simp only [List.cons_append, collect_fusedef, hw, hwne, if_false]
          rw [show collect_fusedef (pre'.append (b :: rest)) = none from hrec]
  · intro rest fd v; rfl

/-- Witness for `collect_fusedef_first_word_safety`. -/
theorem collect_fusedef_first_word_safety_witness :
    ( collect_fusedef ["HS", "\x7d", ""]).isSome = true
    ∧ collect_fusedef (["HS"] ++ "" :: ["\x7d"]) = none
    ∧ scan_loop ("" :: ["-- x"]) [] initVars none = scan_loop ["-- x"] [] initVars none :=
  ⟨ collect_fusedef_first_word_safety.1 ["HS", "\x7d", ""] (by decide),
   collect_fusedef_first_word_safety.2.1 ["HS"] "" ["\x7d"] (by decide) (by decide),
   collect_fusedef_first_word_safety.2.2 ["-- x"] [] initVars⟩

/-- A `create_sample()` call made while `main` selected an HS keyword
attempts exactly that HS build. -/
theorem create_hs (ow : String) (fd : Fusedef) (v : Vars) :
    create_sample_attempts "HS" ow fd v = [("HS", ow)] := rfl

/-- Every build attempted by the internal-oscillator chain of
`create_sample` is an `INTOSC` or `INTOSC_USB` build. -/
theorem fst_mem_intosc_chain (fd : Fusedef) (osclist : List String)
    (p : String × String) (hp : p ∈ create_intosc_chain fd osclist) :
    p.1 = "INTOSC" ∨ p.1 = "INTOSC_USB" := by
  unfold create_intosc_chain at hp
  repeat' split at hp
  all_goals simp_all

/-- Membership in the USB tail of `create_sample`. -/
theorem mem_usb_extra (osclist : List String) (v : Vars) (p : String × String) :
    p ∈ create_usb_extra osclist v ↔
      (p = ("HS_USB", "HS_PLL") ∧ "HS_PLL" ∈ osclist ∧ (v.lookup "usb_bdt").isSome) := by
  unfold create_usb_extra
  split
  · next hc => simp [hc]
  · next hc => simp [hc]; intro he; simp [he] at hc; tauto

/-- A `create_sample()` call made while `main` selected a non-HS
oscillator type attempts no HS build. -/
theorem filter_hs_create_not_hs (osctype ow : String) (fd : Fusedef) (v : Vars)
    (hno : osctype ≠ "HS") :
    (create_sample_attempts osctype ow fd v).filter (fun a => a.1 == "HS") = [] := by
  rw [List.filter_eq_nil_iff]
  intro a ha
  unfold create_sample_attempts at ha
  rw [if_neg hno] at ha
  split at ha
  · split at ha
    · split at ha
      · simp at ha; simp [ha]
      · simp at ha
    · simp at ha
  · split at ha
    · next osclist heq =>
        rw [List.mem_append] at ha
        rcases ha with ha | ha
        · rcases fst_mem_intosc_chain fd osclist a ha with h | h <;> simp [h]
        · rw [mem_usb_extra] at ha
          simp [ha.1]
    · simp at ha

/-- An `INTOSC`-dispatched `create_sample()` call attempts the HS_USB
build exactly when the `osc` group contains `HS_PLL` and the scanner
recorded the USB buffer-descriptor-table feature. -/
theorem mem_hsusb_create_intosc (ow : String) (fd : Fusedef) (v : Vars) (l : List String)
    (h : fd.lookup "osc" = some l) :
    (("HS_USB", "HS_PLL") ∈ create_sample_attempts "INTOSC" ow fd v) ↔
      ("HS_PLL" ∈ l ∧ (v.lookup "usb_bdt").isSome) := by
  unfold create_sample_attempts
  rw [if_neg (by decide : ¬ (("INTOSC" : String) = "HS"))]
  rw [if_neg (by simp [h] : ¬ ((fd.lookup "ioscfs").isSome ∧ (fd.lookup "osc").isNone))]
  rw [h, List.mem_append, mem_usb_extra]
  constructor
  · rintro (hA | hB)
    · rcases fst_mem_intosc_chain fd l _ hA with hh | hh <;> simp at hh
    · exact hB.2
  · intro hc
    exact Or.inr ⟨rfl, hc⟩

/-- C8: on a chip whose `osc` fuse group was scanned, the HS builds
attempted by the pipeline are exactly one per keyword of `HSH`, `PRI`,
`HS` contained in the group, in that fixed order, each with the matched
keyword as its oscword and independent of the other matches (and of the
INTOSC-side dispatches); as a pure function of the scan data the
selection is identical across runs. -/
theorem hs_variant_attempts (fd : Fusedef) (v : Vars) (l : List String)
    (h : fd.lookup "osc" = some l) :
    (main_dispatch fd v).filter (fun a => a.1 == "HS") =
      (if "HSH" ∈ l then [("HS", "HSH")] else [])
      ++ (if "PRI" ∈ l then [("HS", "PRI")] else [])
      ++ (if "HS" ∈ l then [("HS", "HS")] else []) := by
  have e1 := filter_hs_create_not_hs "INTOSC" "OFF" fd v (by decide)
  have e2 := filter_hs_create_not_hs "INTOSC" "INTOSC_NOCLKOUT" fd v (by decide)
  simp only [main_dispatch, h]
  by_cases h1 : "OFF" ∈ l <;> by_cases h2 : "INTOSC_NOCLKOUT" ∈ l <;>
    by_cases h3 : "HSH" ∈ l <;> by_cases h4 : "PRI" ∈ l <;> by_cases h5 : "HS" ∈ l <;>
      simp [h1, h2, h3, h4, h5, e1, e2, create_hs, List.filter_append]

/-- Witness for `hs_variant_attempts`: a chip exposing `PRI` and `HS`
(but not `HSH`) gets exactly those two HS attempts, in order. -/
theorem hs_variant_attempts_witness :
    (main_dispatch [("osc", ["HS", "PRI"])] initVars).filter (fun a => a.1 == "HS") =
      [("HS", "PRI"), ("HS", "HS")] :=
  (hs_variant_attempts [("osc", ["HS", "PRI"])] initVars ["HS", "PRI"] (by decide)).trans
    (by decide)

/-- C3 counterexample: a chip whose `osc` group is
`["HS_PLL", "HS"]` and whose scan found the USB
buffer-descriptor-table feature.  Although `HS_PLL` is present and
`usb_bdt` is set, the only build attempted is the plain HS one: the
HS_USB variant is *not* attempted, because the `create_sample()` calls
made for HS keywords take the `osctype == "HS"` branch and never reach
the USB-variant code. -/
theorem hs_usb_not_attempted_cex :
    ("HS_PLL" ∈ ["HS_PLL", "HS"])
    ∧ ((([("usb_bdt", 1), ("ircfwidth", 0)] : Vars).lookup "usb_bdt").isSome = true)
    ∧ main_dispatch [("osc", ["HS_PLL", "HS"])] [("usb_bdt", 1), ("ircfwidth", 0)]
        = [("HS", "HS")] := by
  decide

/-- C3 amended: an HS_USB build is attempted iff the `osc` group
contains `HS_PLL`, the USB buffer-descriptor-table feature was
detected, *and* the `osc` group also triggers an internal-oscillator
dispatch (`OFF` or `INTOSC_NOCLKOUT` present); when only HS-type
keywords matched, no HS_USB variant is attempted. -/
theorem hs_usb_attempted_iff (fd : Fusedef) (v : Vars) (l : List String)
    (h : fd.lookup "osc" = some l) :
    (("HS_USB", "HS_PLL") ∈ main_dispatch fd v) ↔
      ("HS_PLL" ∈ l ∧ (v.lookup "usb_bdt").isSome
        ∧ ("OFF" ∈ l ∨ "INTOSC_NOCLKOUT" ∈ l)) := by
  have m1 := mem_hsusb_create_intosc "OFF" fd v l h
  have m2 := mem_hsusb_create_intosc "INTOSC_NOCLKOUT" fd v l h
  simp only [main_dispatch, h, List.mem_append]
  by_cases h1 : "OFF" ∈ l <;> by_cases h2 : "INTOSC_NOCLKOUT" ∈ l <;>
    by_cases h3 : "HSH" ∈ l <;> by_cases h4 : "PRI" ∈ l <;> by_cases h5 : "HS" ∈ l <;>
      simp [h1, h2, h3, h4, h5, m1, m2, create_hs, Prod.ext_iff]

/-- Witness for `hs_usb_attempted_iff`. -/
theorem hs_usb_attempted_iff_witness :
    (("HS_USB", "HS_PLL") ∈ main_dispatch [("osc", ["HS_PLL", "OFF"])] [("usb_bdt", 1)]) ↔
      ("HS_PLL" ∈ ["HS_PLL", "OFF"]
        ∧ (([("usb_bdt", 1)] : Vars).lookup "usb_bdt").isSome
        ∧ ("OFF" ∈ ["HS_PLL", "OFF"] ∨ "INTOSC_NOCLKOUT" ∈ ["HS_PLL", "OFF"])) :=
  hs_usb_attempted_iff [("osc", ["HS_PLL", "OFF"])] [("usb_bdt", 1)] ["HS_PLL", "OFF"]
    (by decide)

/-- C1 counterexample: a device file whose scan yields no `osc` fuse
group and no `ioscfs` group either, with a usable blink pin.  The
pipeline attempts *zero* builds for it (and in particular synthesizes
no INTOSC sample with an empty oscword): `create_sample()` only builds
in this situation when an `ioscfs` group exposes `F4MHZ`. -/
theorem no_osc_no_attempt_cex :
    scan_devfile ["var volatile bit pin_A0 is foo", "var volatile bit pin_A0_direction is bar"]
      = some ([], initVars)
    ∧ find_blinkpin (devtext
        ["var volatile bit pin_A0 is foo", "var volatile bit pin_A0_direction is bar"])
      = "pin_A0"
    ∧ pipeline_attempts true
        ["var volatile bit pin_A0 is foo", "var volatile bit pin_A0_direction is bar"]
      = some [] := by
  decide

/-- C1 amended: when the scan yields no `osc` fuse group, at most one
build is attempted, namely an `INTOSC` build with oscword `F4MHZ`
exactly when an `ioscfs` group exposing the `F4MHZ` keyword was
scanned; otherwise (no `ioscfs` group, or one without `F4MHZ`) no
sample is attempted at all. -/
theorem no_osc_dispatch (fd : Fusedef) (v : Vars) (h : fd.lookup "osc" = none) :
    (main_dispatch fd v).length ≤ 1
    ∧ (main_dispatch fd v = [("INTOSC", "F4MHZ")] ↔
        ∃ l, fd.lookup "ioscfs" = some l ∧ "F4MHZ" ∈ l)
    ∧ (main_dispatch fd v = [] ↔
        ¬ ∃ l, fd.lookup "ioscfs" = some l ∧ "F4MHZ" ∈ l) := by
  have key : main_dispatch fd v = match fd.lookup "ioscfs" with
      | some l => if "F4MHZ" ∈ l then [("INTOSC", "F4MHZ")] else []
      | none => [] := by
    simp only [main_dispatch, h, create_sample_attempts]
    rcases hio : fd.lookup "ioscfs" with _ | l
    · simp [h, hio]
    · simp [h, hio]
  rcases hio : fd.lookup "ioscfs" with _ | l
  · rw [key]; simp [hio]
  · rw [key]; simp only [hio]
    by_cases hm : "F4MHZ" ∈ l <;> simp [hm]

/-- Witness for `no_osc_dispatch`. -/
theorem no_osc_dispatch_witness :
    (main_dispatch [("ioscfs", ["F4MHZ"])] initVars).length ≤ 1
    ∧ (main_dispatch [("ioscfs", ["F4MHZ"])] initVars = [("INTOSC", "F4MHZ")] ↔
        ∃ l, ([("ioscfs", ["F4MHZ"])] : Fusedef).lookup "ioscfs" = some l ∧ "F4MHZ" ∈ l)
    ∧ (main_dispatch [("ioscfs", ["F4MHZ"])] initVars = [] ↔
        ¬ ∃ l, ([("ioscfs", ["F4MHZ"])] : Fusedef).lookup "ioscfs" = some l ∧ "F4MHZ" ∈ l) :=
  no_osc_dispatch [("ioscfs", ["F4MHZ"])] initVars (by decide)

/-- C9 counterexample: two `build_sample` runs on identical inputs whose
timestamps fall in different years.  Output line 3 — the copyright line,
not the creation-timestamp line — differs between the runs (and line 20,
the timestamp line, differs as well), so the outputs do *not* differ
only in the embedded timestamp line. -/
theorem build_ts_year_leak_cex :
    ((blink_lines "16f88" "pin_A0" "INTOSC" "INTOSC_NOCLKOUT" [] initVars []
        ⟨"2024", "Mon Dec 30 23:59:59 2024"⟩).get? 3
      ≠ (blink_lines "16f88" "pin_A0" "INTOSC" "INTOSC_NOCLKOUT" [] initVars []
        ⟨"2025", "Wed Jan  1 00:00:01 2025"⟩).get? 3)
    ∧ ((blink_lines "16f88" "pin_A0" "INTOSC" "INTOSC_NOCLKOUT" [] initVars []
        ⟨"2024", "Mon Dec 30 23:59:59 2024"⟩).get? 3
      ≠ some (ts_line ⟨"2024", "Mon Dec 30 23:59:59 2024"⟩))
    ∧ ((blink_lines "16f88" "pin_A0" "INTOSC" "INTOSC_NOCLKOUT" [] initVars []
        ⟨"2025", "Wed Jan  1 00:00:01 2025"⟩).get? 3
      ≠ some (ts_line ⟨"2025", "Wed Jan  1 00:00:01 2025"⟩))
    ∧ ((blink_lines "16f88" "pin_A0" "INTOSC" "INTOSC_NOCLKOUT" [] initVars []
        ⟨"2024", "Mon Dec 30 23:59:59 2024"⟩).get? 20
      ≠ (blink_lines "16f88" "pin_A0" "INTOSC" "INTOSC_NOCLKOUT" [] initVars []
        ⟨"2025", "Wed Jan  1 00:00:01 2025"⟩).get? 20) := by
  decide

/-- C9 amended: `build_sample` is a pure function of its inputs
including the clock reads, so identical inputs with identical
timestamps give byte-identical contents; and for two runs differing
only in the timestamp *within the same copyright year*, the outputs are
identical except for the single embedded creation-timestamp line (with
differing years the copyright header line changes as well, as the
counterexample shows). -/
theorem build_sample_ts_dependence
    (pic pin osctype oscword : String) (fd : Fusedef) (v : Vars) (picdata : Picdata)
    (t1 t2 : Timestamp) (hy : t1.yyyy = t2.yyyy) :
    (t1 = t2 →
      build_sample pic pin osctype oscword fd v picdata t1 =
        build_sample pic pin osctype oscword fd v picdata t2)
    ∧ ((build_sample pic pin osctype oscword fd v picdata t1 = none
        ∧ build_sample pic pin osctype oscword fd v picdata t2 = none)
       ∨ ∃ name pre post,
           build_sample pic pin osctype oscword fd v picdata t1
             = some (name, pre ++ ts_line t1 :: post)
           ∧ build_sample pic pin osctype oscword fd v picdata t2
             = some (name, pre ++ ts_line t2 :: post)) := by
  refine ⟨fun h => by rw [h], ?_⟩
  rcases hsfx : osc_suffix osctype with _ | sfx
  · simp only [build_sample, hsfx]
    exact Or.inl ⟨trivial, trivial⟩
  · by_cases hr : pystartswith osctype "INTOSC" ∧ picdata.lookup "OSCCON_IRCF" = some "-"
    · simp only [build_sample, hsfx, if_pos hr]
      exact Or.inl ⟨trivial, trivial⟩
    · simp only [build_sample, hsfx, if_neg hr]
      refine Or.inr ⟨pic ++ "_blink" ++ sfx ++ ".jal",
        blink_header pic osctype t1.yyyy,
        blink_rest pic pin osctype oscword fd v picdata, rfl, ?_⟩
      simp [blink_lines, hy]

/-- Witness for `build_sample_ts_dependence`: same-year timestamps. -/
theorem build_sample_ts_dependence_witness :
    (⟨"2024", "Mon Jul  1 10:00:00 2024"⟩ = (⟨"2024", "Tue Jul  2 11:00:00 2024"⟩ : Timestamp) →
      build_sample "16f88" "pin_A0" "HS" "HS" [] initVars [] ⟨"2024", "Mon Jul  1 10:00:00 2024"⟩ =
        build_sample "16f88" "pin_A0" "HS" "HS" [] initVars [] ⟨"2024", "Tue Jul  2 11:00:00 2024"⟩)
    ∧ ((build_sample "16f88" "pin_A0" "HS" "HS" [] initVars [] ⟨"2024", "Mon Jul  1 10:00:00 2024"⟩ = none
        ∧ build_sample "16f88" "pin_A0" "HS" "HS" [] initVars [] ⟨"2024", "Tue Jul  2 11:00:00 2024"⟩ = none)
       ∨ ∃ name pre post,
           build_sample "16f88" "pin_A0" "HS" "HS" [] initVars [] ⟨"2024", "Mon Jul  1 10:00:00 2024"⟩
             = some (name, pre ++ ts_line ⟨"2024", "Mon Jul  1 10:00:00 2024"⟩ :: post)
           ∧ build_sample "16f88" "pin_A0" "HS" "HS" [] initVars [] ⟨"2024", "Tue Jul  2 11:00:00 2024"⟩
             = some (name, pre ++ ts_line ⟨"2024", "Tue Jul  2 11:00:00 2024"⟩ :: post)) :=
  build_sample_ts_dependence "16f88" "pin_A0" "HS" "HS" [] initVars []
    ⟨"2024", "Mon Jul  1 10:00:00 2024"⟩ ⟨"2024", "Tue Jul  2 11:00:00 2024"⟩ rfl

end Blink
